import Mathlib

/-!
Verification of the Flask chatroom application (`src/main.py`).

The app is shallowly embedded: Python strings become Lean `String`s,
the SQLite tables become Lean lists of rows, a Flask request handler
becomes a pure function from (session, form fields, table state) to a
result record holding the new table state, the flash notifications and
the redirect / rendered page.  Third-party cryptography (werkzeug
`generate_password_hash` / `check_password_hash`) is abstracted as a
function parameter of the corresponding route.
-/

namespace Chatroom

/-- The allow-list of `sanitize_input`: the regex `[^a-zA-Z0-9_@.\-:() ]`
in `main.py` deletes every character that this predicate rejects. -/
def allowedChar (c : Char) : Bool :=
  c.isAlpha || c.isDigit || c = '_' || c = '@' || c = '.' || c = '-' ||
    c = ':' || c = '(' || c = ')' || c = ' '

/-- `sanitize_input` from `main.py`: remove every character outside the
allow-list, then truncate to 256 characters (`re.sub(...)[:256]`). -/
def sanitize_input (s : String) : String :=
  String.mk ((s.data.filter allowedChar).take 256)

/-- Python `s.startswith(c)` for a one-character prefix `c`. -/
def startsWithChar (s : String) (c : Char) : Bool :=
  match s.data with
  | [] => false
  | d :: _ => d = c

/-- Python `l.split(" ", 1)` on the character list `l`: the part before
the first space, and—when a space exists—the remainder after it. -/
def splitFirstSpace (l : List Char) : List Char × Option (List Char) :=
  match l with
  | [] => ([], none)
  | c :: cs =>
    if c = ' ' then ([], some cs)
    else
      let r := splitFirstSpace cs
      (c :: r.1, r.2)

/-- A row of the `message` table (`Message` model in `main.py`):
sender id, recipient id, timestamp string, content. -/
structure Message where
  senderid : Nat
  recipientid : Nat
  datetime : String
  content : String
  deriving Repr, DecidableEq

/-- The outcome of a `POST /send` request: the `message` table after the
request, the flash notifications it queued (text, category), and the
page it redirects to. -/
structure SendResult where
  messages : List Message
  flashes : List (String × String)
  redirectTo : String
  deriving Repr, DecidableEq

/-- The static help text flashed by the `$help` command in `main.py`. -/
def helpText : String :=
  "\n            $help - shows this help message\n            $swapchannel <id> - swap to the channel with the provided id\n            $whisper <user> <message> - send a whisper to another user\n            $account - go to your account page\n            $silent <message> - send a silent message\n            $setslowmode <duration> - set the current channel\x27s slowmode\n            "

/-- The `/send` route (`send_message` in `main.py`).  `now` is the
server wall-clock timestamp the `Message` model generates by default,
`sess` is `session.get("user_id")` (`none` when no user id is in the
session), `formMessage` is `request.form.get("message", "")`, and
`messages` is the `message` table before the request. -/
def send_message (now : String) (sess : Option Nat) (formMessage : String)
    (messages : List Message) : SendResult :=
  let message := sanitize_input formMessage
  let user_id := sess.getD 1
  if startsWithChar message '$' then
    let split := splitFirstSpace (message.data.drop 1)
    let command := String.mk (split.1.map Char.toLower)
    let args := split.2
    if command = "help" then
      { messages := messages, flashes := [(helpText, "info")], redirectTo := "index" }
    else if command = "swapchannel" && args.isSome then
      let channel_id := sanitize_input (String.mk (args.getD []))
      { messages := messages,
        flashes := [("Swapped to channel " ++ channel_id, "info")],
        redirectTo := "index" }
    else if command = "whisper" && args.isSome then
      let whisper_args := splitFirstSpace (args.getD [])
      let target_user := sanitize_input (String.mk whisper_args.1)
      { messages := messages,
        flashes := [("Whispered to " ++ target_user, "info")],
        redirectTo := "index" }
    else if command = "account" then
      { messages := messages, flashes := [], redirectTo := "account" }
    else if command = "silent" && args.isSome then
      { messages := messages,
        flashes := [("Silent message sent.", "info")],
        redirectTo := "index" }
    else if command = "setslowmode" && args.isSome then
      let duration := sanitize_input (String.mk (args.getD []))
      { messages := messages,
        flashes := [("Slowmode set to " ++ duration ++ " seconds.", "info")],
        redirectTo := "index" }
    else
      { messages := messages,
        flashes := [("Unknown command or missing arguments.", "error")],
        redirectTo := "index" }
  else
    { messages := messages ++ [{ senderid := user_id, recipientid := 1,
                                 datetime := now, content := message }],
      flashes := [("Message sent!", "success")],
      redirectTo := "index" }

/-- A row of the `user` table (`User` model / `CREATE TABLE user` in
`main.py`); the fields touched by registration and login. -/
structure UserRow where
  id : Nat
  username : String
  email : String
  password_hash : String
  deriving Repr, DecidableEq

/-- The `UNIQUE` constraint on `user.username`: some row already holds
this username. -/
def usernameTaken (table : List UserRow) (uname : String) : Bool :=
  table.any (fun u => u.username == uname)

/-- The `UNIQUE` constraint on `user.email`: some row already holds
this email. -/
def emailTaken (table : List UserRow) (em : String) : Bool :=
  table.any (fun u => u.email == em)

/-- Outcome of a `POST /register` request: the `user` table after the
request, the flash notifications, and the page served (a redirect
target or a rendered template). -/
structure RegisterResult where
  table : List UserRow
  flashes : List (String × String)
  page : String
  deriving Repr, DecidableEq

/-- The `/register` route (POST branch of `register` in `main.py`).
`gen` abstracts werkzeug `generate_password_hash`.  The `INSERT`
raising `sqlite3.IntegrityError` on a `UNIQUE` violation is modelled by
checking the two unique columns; on the error path the connection is
closed without a commit, so the table is unchanged; `AUTOINCREMENT`
is modelled as one past the current row count. -/
def register_post (gen : String → String) (table : List UserRow)
    (formUsername formEmail formPassword : String) : RegisterResult :=
  let username := sanitize_input formUsername
  let email := sanitize_input formEmail
  let password_hash := gen formPassword
  if usernameTaken table username || emailTaken table email then
    { table := table,
      flashes := [("Username or email already exists.", "error")],
      page := "register.html" }
  else
    { table := table ++ [{ id := table.length + 1, username := username,
                           email := email, password_hash := password_hash }],
      flashes := [("Registration successful! Please log in.", "success")],
      page := "login" }

/-- Outcome of a `POST /login` request: the session user id it
establishes (if any), the flash notifications, and the page served. -/
structure LoginResult where
  sessionUser : Option Nat
  flashes : List (String × String)
  page : String
  deriving Repr, DecidableEq

/-- `SELECT id, password_hash FROM user WHERE username = ?` followed by
`fetchone()`: the first row matching the username, if any. -/
def lookupUser (table : List UserRow) (uname : String) : Option UserRow :=
  table.find? (fun u => u.username == uname)

/-- The single failure response of the login route: both the
unknown-username case and the wrong-password case fall into the same
`else` in `main.py`. -/
def invalidLogin : LoginResult :=
  { sessionUser := none,
    flashes := [("Invalid username or password.", "error")],
    page := "login.html" }

/-- The `/login` route (POST branch of `login` in `main.py`).  `check`
abstracts werkzeug `check_password_hash`; the Python
`if user and check_password_hash(user[1], password)` is the match plus
the inner if, both failing into `invalidLogin`. -/
def login_post (check : String → String → Bool) (table : List UserRow)
    (formUsername formPassword : String) : LoginResult :=
  let username := sanitize_input formUsername
  let password := formPassword
  match lookupUser table username with
  | some u =>
    if check u.password_hash password then
      { sessionUser := some u.id,
        flashes := [("Logged in successfully!", "success")],
        page := "index" }
    else invalidLogin
  | none => invalidLogin

/-! ### Helper lemmas about the sanitizer and the send route -/

/-- Every character surviving `sanitize_input` satisfies the allow-list. -/
theorem mem_sanitize_allowed (s : String) {c : Char}
    (hc : c ∈ (sanitize_input s).data) : allowedChar c = true := by
  have h1 : c ∈ s.data.filter allowedChar := List.mem_of_mem_take hc
  exact (List.mem_filter.mp h1).2

/-- The output of `sanitize_input` has at most 256 characters. -/
theorem sanitize_length_le (s : String) : (sanitize_input s).length ≤ 256 := by
  show ((s.data.filter allowedChar).take 256).length ≤ 256
  exact List.length_take_le 256 (s.data.filter allowedChar)

/-- The sanitized message never starts with the command sentinel, since
the dollar sign is outside the allow-list. -/
theorem sanitize_not_dollar (s : String) :
    startsWithChar (sanitize_input s) '$' = false := by
  unfold startsWithChar
  cases h : (sanitize_input s).data with
  | nil => rfl
  | cons d l =>
    have hd : allowedChar d = true :=
      mem_sanitize_allowed s (by rw [h]; exact List.mem_cons_self d l)
    have hne : d ≠ '$' := by
      intro he
      rw [he] at hd
      exact absurd hd (by decide)
    simp [hne]

/-- `send_message` always takes the regular-message branch: it appends
one row built from the session user id (default 1), recipient 1, the
server timestamp and the sanitized content, and flashes success. -/
theorem send_message_regular (now : String) (sess : Option Nat) (m : String)
    (db : List Message) :
    send_message now sess m db =
      { messages := db ++ [{ senderid := sess.getD 1, recipientid := 1,
                             datetime := now, content := sanitize_input m }],
        flashes := [("Message sent!", "success")],
        redirectTo := "index" } := by
  unfold send_message
  simp [sanitize_not_dollar]

/-! ### Claim theorems -/

/-- Claim C1: for every input string, `sanitize_input` returns a string
of length at most 256 all of whose characters are in the allow-list
`[A-Za-z0-9_@.\-:() ]`; it is a total function (no error path), and may
return the empty string. -/
theorem sanitize_input_contract (s : String) :
    (sanitize_input s).length ≤ 256 ∧
      ∀ c ∈ (sanitize_input s).data, allowedChar c = true :=
  ⟨sanitize_length_le s, fun _ hc => mem_sanitize_allowed s hc⟩

/-- Claim C10: `sanitize_input` is idempotent: sanitizing twice gives
the same string as sanitizing once. -/
theorem sanitize_input_idempotent (s : String) :
    sanitize_input (sanitize_input s) = sanitize_input s := by
  have hfil : ((s.data.filter allowedChar).take 256).filter allowedChar
      = (s.data.filter allowedChar).take 256 := by
    apply List.filter_eq_self.mpr
    intro a ha
    exact (List.mem_filter.mp (List.mem_of_mem_take ha)).2
  show String.mk ((((s.data.filter allowedChar).take 256).filter
      allowedChar).take 256) = String.mk ((s.data.filter allowedChar).take 256)
  rw [hfil, List.take_take]
  rfl

/-- Claim C6: the sanitized form of any `POST /send` message never
begins with the sentinel `$` (the dollar sign is outside the
allow-list), so the command-dispatch branch of `send_message` is
unreachable and every request appends one `Message` row with
`recipientid` fixed to 1. -/
theorem send_dispatch_unreachable (now : String) (sess : Option Nat)
    (m : String) (db : List Message) :
    startsWithChar (sanitize_input m) '$' = false ∧
      send_message now sess m db =
        { messages := db ++ [{ senderid := sess.getD 1, recipientid := 1,
                               datetime := now, content := sanitize_input m }],
          flashes := [("Message sent!", "success")],
          redirectTo := "index" } :=
  ⟨sanitize_not_dollar m, send_message_regular now sess m db⟩

/-- Claim C4: a `POST /send` whose message is the plain string "hello"
appends exactly one `Message` row with content "hello" and leaves every
other row unchanged. -/
theorem send_plain_hello_appends_one (now : String) (sess : Option Nat)
    (db : List Message) :
    send_message now sess "hello" db =
      { messages := db ++ [{ senderid := sess.getD 1, recipientid := 1,
                             datetime := now, content := "hello" }],
        flashes := [("Message sent!", "success")],
        redirectTo := "index" } :=
  send_message_regular now sess "hello" db

/-- Claim C2 (code bug): the request with form message `$help` does not
produce the help notification; the sanitizer deletes the `$`, the
dispatch test fails, and a `Message` row with content "help" is stored
with a success flash. -/
theorem send_help_is_stored_as_plain_message :
    send_message "t0" (some 7) "$help" [] =
      { messages := [{ senderid := 7, recipientid := 1, datetime := "t0",
                       content := "help" }],
        flashes := [("Message sent!", "success")],
        redirectTo := "index" } := by decide

/-- Claim C3 (code bug): the request with form message
`$whisper alice hello there` never reaches the whisper parser; the
sanitizer deletes the `$` and the whole text is stored as a plain
`Message` row. -/
theorem send_whisper_is_stored_as_plain_message :
    send_message "t0" (some 7) "$whisper alice hello there" [] =
      { messages := [{ senderid := 7, recipientid := 1, datetime := "t0",
                       content := "whisper alice hello there" }],
        flashes := [("Message sent!", "success")],
        redirectTo := "index" } := by decide

/-- Claim C5 (code bug): the request with form message `$bogus` does not
produce the unknown-command failure notification; the sanitizer deletes
the `$` and a `Message` row with content "bogus" is stored with a
success flash. -/
theorem send_bogus_is_stored_as_plain_message :
    send_message "t0" (some 7) "$bogus" [] =
      { messages := [{ senderid := 7, recipientid := 1, datetime := "t0",
                       content := "bogus" }],
        flashes := [("Message sent!", "success")],
        redirectTo := "index" } := by decide

/-- Claim C9, counterexample: with no session user id at all, a `POST
/send` with message "hello" still persists a `Message` row (with the
placeholder sender id 1), so persistence is not gated on
session authentication. -/
theorem send_message_unauthenticated_persists :
    (send_message "t0" none "hello" []).messages =
      [{ senderid := 1, recipientid := 1, datetime := "t0",
         content := "hello" }] ∧
      (send_message "t0" none "hello" []).messages ≠ [] := by decide

/-- Claim C9, amended: on `POST /send` the message is persisted
unconditionally; the sender id is the session user id when a session
exists and the placeholder 1 otherwise, and the row carries recipient
id 1, the server-generated timestamp and the sanitized content. -/
theorem send_message_no_auth_check (now : String) (m : String)
    (db : List Message) :
    (send_message now none m db).messages =
        db ++ [{ senderid := 1, recipientid := 1, datetime := now,
                 content := sanitize_input m }] ∧
      ∀ uid : Nat, (send_message now (some uid) m db).messages =
        db ++ [{ senderid := uid, recipientid := 1, datetime := now,
                 content := sanitize_input m }] :=
  ⟨by rw [send_message_regular]; rfl,
   fun uid => by rw [send_message_regular]; rfl⟩

/-- Claim C7: a first registration with a fresh username and email
succeeds (success flash, redirect to login); a second registration
reusing either the same username or the same email fails with the
conflict notification, leaves the `user` table unchanged, and re-shows
the registration form. -/
theorem register_duplicate_rejected (gen : String → String)
    (table : List UserRow) (u e p u2 e2 p2 p3 : String)
    (hu : usernameTaken table (sanitize_input u) = false)
    (he : emailTaken table (sanitize_input e) = false) :
    (register_post gen table u e p).flashes
        = [("Registration successful! Please log in.", "success")] ∧
      (register_post gen table u e p).page = "login" ∧
      register_post gen (register_post gen table u e p).table u e2 p2
        = { table := (register_post gen table u e p).table,
            flashes := [("Username or email already exists.", "error")],
            page := "register.html" } ∧
      register_post gen (register_post gen table u e p).table u2 e p3
        = { table := (register_post gen table u e p).table,
            flashes := [("Username or email already exists.", "error")],
            page := "register.html" } := by
  have h1 : register_post gen table u e p =
      { table := table ++ [{ id := table.length + 1,
                             username := sanitize_input u,
                             email := sanitize_input e,
                             password_hash := gen p }],
        flashes := [("Registration successful! Please log in.", "success")],
        page := "login" } := by
    unfold register_post
    simp [hu, he]
  rw [h1]
  refine ⟨rfl, rfl, ?_, ?_⟩
  · unfold register_post
    simp [usernameTaken, List.any_append]
  · unfold register_post
    simp [usernameTaken, emailTaken, List.any_append]

/-- A concrete user row for exercising registration and login. -/
def aliceRow : UserRow :=
  { id := 1, username := "alice", email := "alice@mail.com",
    password_hash := "h1" }

/-- A stand-in for the abstract password-hash checker in witnesses:
plain string comparison of stored hash against the password. -/
def eqCheck (h q : String) : Bool := h == q

/-- Claim C7 witness: on the empty table, registering alice succeeds,
and re-registering the same username is rejected without a table
change. -/
theorem register_duplicate_rejected_witness :
    usernameTaken [] (sanitize_input "alice") = false ∧
      emailTaken [] (sanitize_input "alice@mail.com") = false ∧
      (register_post id [] "alice" "alice@mail.com" "pw").page = "login" ∧
      register_post id (register_post id [] "alice" "alice@mail.com" "pw").table
          "alice" "other@mail.com" "pw2"
        = { table := (register_post id [] "alice" "alice@mail.com" "pw").table,
            flashes := [("Username or email already exists.", "error")],
            page := "register.html" } :=
  ⟨by decide, by decide,
   (register_duplicate_rejected id [] "alice" "alice@mail.com" "pw"
      "bob" "other@mail.com" "pw2" "pw3" (by decide) (by decide)).2.1,
   (register_duplicate_rejected id [] "alice" "alice@mail.com" "pw"
      "bob" "other@mail.com" "pw2" "pw3" (by decide) (by decide)).2.2.1⟩

/-- Claim C8: a login attempt with a username not in the table and a
login attempt with an existing username but a wrong password produce
exactly the same result — the generic invalid-credentials response —
so the response does not reveal whether a username exists. -/
theorem login_failure_indistinguishable (check : String → String → Bool)
    (table : List UserRow) (a pa b pb : String) (u : UserRow)
    (ha : lookupUser table (sanitize_input a) = none)
    (hb : lookupUser table (sanitize_input b) = some u)
    (hc : check u.password_hash pb = false) :
    login_post check table a pa = login_post check table b pb ∧
      login_post check table a pa = invalidLogin := by
  unfold login_post
  simp [ha, hb, hc]

/-- Claim C8 witness: with only alice registered, logging in as the
unknown user bob and logging in as alice with a wrong password give
the identical invalid-credentials response. -/
theorem login_failure_indistinguishable_witness :
    lookupUser [aliceRow] (sanitize_input "bob") = none ∧
      lookupUser [aliceRow] (sanitize_input "alice") = some aliceRow ∧
      eqCheck aliceRow.password_hash "wrong" = false ∧
      login_post eqCheck [aliceRow] "bob" "x"
        = login_post eqCheck [aliceRow] "alice" "wrong" :=
  ⟨by decide, by decide, by decide,
   (login_failure_indistinguishable eqCheck [aliceRow] "bob" "x"
      "alice" "wrong" aliceRow (by decide) (by decide) (by decide)).1⟩

end Chatroom
